import Mathlib

/-!
Verification development for the BGP orchestrator / conflict detector.

Shallow embedding of the conflict-detection core
(`backend/core/conflict_detector.py`), the peering CRUD paths
(`backend/app/api/v1/routes/bgp_peerings.py`), the pydantic schema
(`backend/schemas/peering.py`), the circuit breaker
(`backend/utils/circuit_breaker.py`), the streaming consumer's conflict
lookup (`backend/streaming/bgp_consumer.py`) and the anomaly detector
(`backend/observability/anomaly_detector.py`).

Conventions of the embedding:
* Python machine floats used for times and metric values carry exact
  rational values here (ℚ); the code only adds, subtracts, multiplies,
  divides and compares them, which ℚ models exactly.
* Database rows are a `List BGPPeering`; SQLAlchemy `select ... where`
  becomes `List.filter`.
* `async` functions are pure: the per-rule timeout / exception machinery
  of `BGPConflictDetector.detect_conflicts` is modelled separately by
  `RuleOutcome` / `processResults`.
-/

/-- Severity enum of `core/conflict_detector.py` (`ConflictSeverity`). -/
inductive ConflictSeverity
  | critical
  | high
  | medium
  | low
deriving DecidableEq, Repr

/-- Conflict type enum of `core/conflict_detector.py` (`ConflictType`). -/
inductive ConflictType
  | asn_collision
  | rpki_invalid
  | session_overlap
  | routing_loop
  | configuration_mismatch
deriving DecidableEq, Repr

/-- Values stored in a conflict's `metadata` dict (heterogeneous in Python). -/
inductive MetaVal
  | n (v : Nat)
  | s (v : String)
  | ns (v : List Nat)
  | b (v : Bool)
deriving DecidableEq, Repr

/-- The `Conflict` dataclass of `core/conflict_detector.py`. -/
structure Conflict where
  type : ConflictType
  severity : ConflictSeverity
  description : String
  affected_peers : List Nat
  recommended_action : String
  metadata : List (String × MetaVal)
deriving DecidableEq, Repr

/-- The slice of the `routing_policy` JSON document that the code inspects:
`RoutingLoopRule` reads `routing_policy["import"]["as_path"]` and uses it
only when the whole chain exists and the value is a list of ASNs.
`importAsPath = some l` models exactly that situation; `none` models a
missing/empty `import` section, a missing `as_path` key, or a non-list
value (all of which make the rule emit nothing). -/
structure RoutingPolicy where
  importAsPath : Option (List Nat)
deriving DecidableEq, Repr

/-- The `BGPPeering` ORM row of `models/peering.py`.  `id` is `none` for a
freshly constructed, not yet committed object (the create paths build the
candidate this way).  `status` is the string value of `PeeringStatus`
(`"active" | "pending" | "disabled"`).  `peer_ip` is the stored string
(column `String(45)`).  DB-generated audit timestamps are not modelled:
no claim observes them. -/
structure BGPPeering where
  id : Option Nat
  name : String
  local_asn : Nat
  peer_asn : Nat
  peer_ip : String
  hold_time : Nat
  keepalive : Nat
  device : String
  interface : Option String
  status : String
  address_families : List String
  routing_policy : RoutingPolicy
  is_deleted : Bool
deriving DecidableEq, Repr

/-! ### Model of `ipaddress.ip_address` / `is_private`

`PrefixOverlapRule` calls Python's `ipaddress.ip_address(str(peer_ip))`
and reads `.is_private`.  The embedding models the IPv4 dotted-quad
fragment of that standard-library function (the only address family any
claim exercises): a string parses iff it is four dot-separated decimal
octets, each without leading zeros and at most 255, and `is_private`
follows the IPv4 private-network table of the `ipaddress` module. -/

/-- One decimal octet as accepted by `ipaddress`: 1-3 digits, no leading
zero on multi-digit octets, value at most 255. -/
def parseOctet (s : String) : Option Nat :=
  if s.length = 0 ∨ 3 < s.length then none
  else if ¬ s.all Char.isDigit then none
  else if 1 < s.length ∧ s.front = '0' then none
  else if s.toNat! ≤ 255 then some s.toNat! else none

/-- IPv4 dotted-quad parse: the four octets, or `none` when invalid. -/
def parseIPv4 (s : String) : Option (List Nat) :=
  match (s.splitOn ".").mapM parseOctet with
  | some l => if l.length = 4 then some l else none
  | none => none

/-- IPv4 `is_private` of the `ipaddress` module: membership in its
private-network table (0.0.0.0/8, 10/8, 127/8, 169.254/16, 172.16/12,
192.0.0.0/24, 192.0.2.0/24, 192.168/16, 198.18/15, 198.51.100/24,
203.0.113/24, 240/4, 255.255.255.255/32). -/
def isPrivateIPv4 : List Nat → Bool
  | [a, b, c, _d] =>
    a = 0 ∨ a = 10 ∨ a = 127 ∨ (a = 169 ∧ b = 254) ∨
    (a = 172 ∧ 16 ≤ b ∧ b ≤ 31) ∨ (a = 192 ∧ b = 0 ∧ c = 0) ∨
    (a = 192 ∧ b = 0 ∧ c = 2) ∨ (a = 192 ∧ b = 168) ∨
    (a = 198 ∧ (b = 18 ∨ b = 19)) ∨ (a = 198 ∧ b = 51 ∧ c = 100) ∨
    (a = 203 ∧ b = 0 ∧ c = 113) ∨ 240 ≤ a
  | _ => false

/-! ### The five detection rules (`core/conflict_detector.py`) -/

/-- `ASNCollisionRule.check` (lines 159-203): records with the same
`peer_asn`, a different `peer_ip`, status `"active"` and an id different
from the candidate's produce one high-severity `asn_collision` conflict.
The defensive `peer_asn is None` guard of the source is unreachable here
because the `peer_asn` column is non-nullable. -/
def ASNCollisionRule.check (peering : BGPPeering) (all_peerings : List BGPPeering) :
    Option Conflict :=
  let collisions := all_peerings.filter (fun p =>
    decide (p.id ≠ peering.id ∧ p.peer_asn = peering.peer_asn ∧
      p.peer_ip ≠ peering.peer_ip ∧ p.status = "active"))
  if collisions.isEmpty then none
  else some
    { type := .asn_collision
      severity := .high
      description := "Multiple active peerings found for ASN " ++
        toString peering.peer_asn ++ " with different IPs"
      affected_peers := peering.id.toList ++ collisions.filterMap (fun p => p.id)
      recommended_action := "Review peerings to ensure they're not duplicate sessions"
      metadata := [("collision_count", .n collisions.length), ("peer_asn", .n peering.peer_asn)] }

/-- `RPKIValidationRule.check` (lines 229-257): private ASN ranges are
skipped, and the public branch is an unimplemented placeholder — both
paths of the source return `None`. -/
def RPKIValidationRule.check (peering : BGPPeering) (_all_peerings : List BGPPeering) :
    Option Conflict :=
  if (64512 ≤ peering.peer_asn ∧ peering.peer_asn ≤ 65534) ∨
      (4200000000 ≤ peering.peer_asn ∧ peering.peer_asn ≤ 4294967294) then none
  else none

/-- `SessionOverlapRule.check` (lines 280-329).  The `not all([...])`
guard is Python truthiness on `[device, peer_ip, peer_asn]`: an empty
string or a zero ASN makes the rule return `None`. -/
def SessionOverlapRule.check (peering : BGPPeering) (all_peerings : List BGPPeering) :
    Option Conflict :=
  if peering.device = "" ∨ peering.peer_ip = "" ∨ peering.peer_asn = 0 then none
  else
    let overlaps := all_peerings.filter (fun p =>
      decide (p.id ≠ peering.id ∧ p.device = peering.device ∧
        p.peer_ip = peering.peer_ip ∧ p.peer_asn = peering.peer_asn))
    if overlaps.isEmpty then none
    else some
      { type := .session_overlap
        severity := .critical
        description := "Duplicate peering session found on device " ++ peering.device ++
          " for " ++ peering.peer_ip
        affected_peers := peering.id.toList ++ overlaps.filterMap (fun p => p.id)
        recommended_action := "Remove duplicate peering session"
        metadata := [("device", .s peering.device), ("peer_ip", .s peering.peer_ip),
          ("peer_asn", .n peering.peer_asn)] }

/-- `RoutingLoopRule.check` (lines 359-411): first the direct collision
`local_asn == peer_asn`, then the AS_PATH membership test on
`routing_policy["import"]["as_path"]`. -/
def RoutingLoopRule.check (peering : BGPPeering) (_all_peerings : List BGPPeering) :
    Option Conflict :=
  if peering.local_asn = peering.peer_asn then
    some
      { type := .routing_loop
        severity := .critical
        description := "ASN collision detected: local ASN " ++
          toString peering.local_asn ++ " matches peer ASN"
        affected_peers := peering.id.toList
        recommended_action := "Modify local ASN or peer ASN to eliminate collision"
        metadata := [("local_asn", .n peering.local_asn), ("peer_asn", .n peering.peer_asn)] }
  else
    match peering.routing_policy.importAsPath with
    | some as_path_filter =>
      if peering.local_asn ∈ as_path_filter then
        some
          { type := .routing_loop
            severity := .critical
            description := "AS_PATH loop condition: local ASN " ++
              toString peering.local_asn ++ " present in import policy AS_PATH filter"
            affected_peers := peering.id.toList
            recommended_action := "Review and modify import policy AS_PATH filter to prevent loop-back"
            metadata := [("local_asn", .n peering.local_asn), ("as_path", .ns as_path_filter)] }
      else none
    | none => none

/-- `PrefixOverlapRule.check` (lines 440-530): IP format validation,
private-address advisory for active sessions, then the duplicate
`(device, peer_ip)` scan, which emits a conflict of type
`SESSION_OVERLAP`. -/
def PrefixOverlapRule.check (peering : BGPPeering) (all_peerings : List BGPPeering) :
    Option Conflict :=
  match parseIPv4 peering.peer_ip with
  | none =>
    some
      { type := .configuration_mismatch
        severity := .high
        description := "Invalid IP address format: " ++ peering.peer_ip
        affected_peers := peering.id.toList
        recommended_action := "Correct IP address format to valid IPv4 or IPv6 address"
        metadata := [("invalid_ip", .s peering.peer_ip)] }
  | some octets =>
    if isPrivateIPv4 octets ∧ peering.status = "active" then
      some
        { type := .configuration_mismatch
          severity := .medium
          description := "Private IP address space detected in active peering: " ++ peering.peer_ip
          affected_peers := peering.id.toList
          recommended_action := "Verify private IP usage is intentional for internal peering configuration"
          metadata := [("peer_ip", .s peering.peer_ip), ("is_private", .b true)] }
    else if peering.device = "" ∨ peering.peer_ip = "" then none
    else
      let overlaps := all_peerings.filter (fun p =>
        decide (p.id ≠ peering.id ∧ p.device = peering.device ∧ p.peer_ip = peering.peer_ip))
      if overlaps.isEmpty then none
      else some
        { type := .session_overlap
          severity := .critical
          description := "Duplicate peer IP " ++ peering.peer_ip ++ " on device " ++ peering.device
          affected_peers := peering.id.toList ++ overlaps.filterMap (fun p => p.id)
          recommended_action := "Remove duplicate peering session"
          metadata := [("device", .s peering.device), ("peer_ip", .s peering.peer_ip)] }

/-! ### The evaluator (`BGPConflictDetector.detect_conflicts`, lines 576-667)

`asyncio.gather(..., return_exceptions=True)` delivers, for every rule,
either its returned optional conflict, an `asyncio.TimeoutError` (the
per-rule 5-second deadline expired) or another exception.  `RuleOutcome`
is that three-way result; `processResults` is the aggregation loop of
lines 624-653, which skips timeouts and exceptions and appends non-`None`
conflicts in rule-registration order. -/

/-- Per-rule deadline `RULE_TIMEOUT_SECONDS` (line 610), in seconds. -/
def RULE_TIMEOUT_SECONDS : ℚ := 5

/-- Outcome of one rule under `asyncio.gather(..., return_exceptions=True)`. -/
inductive RuleOutcome
  | completed (c : Option Conflict)
  | timeout
  | error
deriving DecidableEq, Repr

/-- The result-processing loop of `detect_conflicts` (lines 624-653). -/
def processResults : List RuleOutcome → List Conflict
  | [] => []
  | .completed (some c) :: rest => c :: processResults rest
  | .completed none :: rest => processResults rest
  | .timeout :: rest => processResults rest
  | .error :: rest => processResults rest

/-- `BGPConflictDetector.detect_conflicts` on the rule set registered by
`__init__` (lines 568-574), in registration order, in the run where every
rule completes within its deadline (the rules of this embedding are pure
and total). -/
def BGPConflictDetector.detect_conflicts (peering : BGPPeering)
    (all_peerings : List BGPPeering) : List Conflict :=
  processResults
    [ .completed (ASNCollisionRule.check peering all_peerings)
    , .completed (RPKIValidationRule.check peering all_peerings)
    , .completed (SessionOverlapRule.check peering all_peerings)
    , .completed (RoutingLoopRule.check peering all_peerings)
    , .completed (PrefixOverlapRule.check peering all_peerings) ]

/-! ### Peering catalog operations (`app/api/v1/routes/bgp_peerings.py`)

The database is a `List BGPPeering`; every route's
`select(BGPPeering).where(...)` becomes a `List.filter`.  Each operation
returns the catalog state after the request together with its response;
a rejected request returns the state it was given (the route raises
`HTTPException` before `db.commit()`, so nothing is persisted). -/

/-- The payload of `BGPPeeringCreate` (schema `schemas/peering.py`): the
request body of the create routes.  `status` and `address_families` carry
the string values of their enums. -/
structure PeeringDraft where
  name : String
  local_asn : Nat
  peer_asn : Nat
  peer_ip : String
  hold_time : Nat
  keepalive : Nat
  device : String
  interface : Option String
  status : String
  address_families : List String
  routing_policy : RoutingPolicy
deriving DecidableEq, Repr

/-- The `BGPPeering(...)` model construction of `create_peering`
(lines 119-132) and `bulk_create_peerings` (lines 397-411): a fresh ORM
object whose `id` is still `None` and whose `is_deleted` is false. -/
def draftToPeering (d : PeeringDraft) : BGPPeering :=
  { id := none
    name := d.name
    local_asn := d.local_asn
    peer_asn := d.peer_asn
    peer_ip := d.peer_ip
    hold_time := d.hold_time
    keepalive := d.keepalive
    device := d.device
    interface := d.interface
    status := d.status
    address_families := d.address_families
    routing_policy := d.routing_policy
    is_deleted := false }

/-- `select(BGPPeering).where(BGPPeering.is_deleted == False)`: the
snapshot handed to conflict detection by the create, update and bulk
routes (lines 114-116, 387, 565-567). -/
def nonDeletedSnapshot (db : List BGPPeering) : List BGPPeering :=
  db.filter (fun p => !p.is_deleted)

/-- Autoincrement id assignment performed by the database on commit:
one more than the largest id in use. -/
def nextId (db : List BGPPeering) : Nat :=
  (db.filterMap (fun p => p.id)).foldr max 0 + 1

/-- Ids handed out to a committed batch, in insertion order. -/
def assignIds (db : List BGPPeering) : List BGPPeering → List BGPPeering
  | [] => []
  | p :: rest =>
    let p1 : BGPPeering := { p with id := some (nextId db) }
    p1 :: assignIds (db ++ [p1]) rest

/-- `create_peering` (lines 81-302): snapshot the non-deleted peerings,
build the candidate, run `detect_conflicts`; a non-empty conflict list is
returned as the HTTP 400 payload and nothing is written, otherwise the
row is committed. -/
def create_peering (db : List BGPPeering) (d : PeeringDraft) :
    List BGPPeering × Option (List Conflict) :=
  let all_peerings := nonDeletedSnapshot db
  let peering := draftToPeering d
  let conflicts := BGPConflictDetector.detect_conflicts peering all_peerings
  if conflicts.isEmpty then (db ++ assignIds db [peering], none)
  else (db, some conflicts)

/-- `list_peerings` (lines 307-348): non-deleted rows, optional device /
status / peer-ASN filters, then `offset(skip).limit(limit)`.  The
`created_at` sort is not modelled (timestamps are DB-generated); the
claims concern only which rows can appear. -/
def list_peerings (db : List BGPPeering) (device : Option String)
    (status_filter : Option String) (peer_asn : Option Nat)
    (skip : Nat) (limit : Nat) : List BGPPeering :=
  let q := db.filter (fun p =>
    !p.is_deleted &&
    (match device with | some dv => p.device == dv | none => true) &&
    (match status_filter with | some st => p.status == st | none => true) &&
    (match peer_asn with | some a => p.peer_asn == a | none => true))
  (q.drop skip).take limit

/-- The request body of `update_peering` (`BGPPeeringUpdate`): unset
fields are `none`.  Fields sent as JSON `null` are also skipped by the
route (`elif value is not None`), so `none` covers both. -/
structure PeeringPatch where
  name : Option String
  local_asn : Option Nat
  peer_asn : Option Nat
  peer_ip : Option String
  hold_time : Option Nat
  keepalive : Option Nat
  device : Option String
  interface : Option String
  status : Option String
  address_families : Option (List String)
  routing_policy : Option RoutingPolicy
deriving DecidableEq, Repr

/-- The field-update loop of `update_peering` (lines 551-560). -/
def applyPatch (p : BGPPeering) (u : PeeringPatch) : BGPPeering :=
  { p with
    name := u.name.getD p.name
    local_asn := u.local_asn.getD p.local_asn
    peer_asn := u.peer_asn.getD p.peer_asn
    peer_ip := u.peer_ip.getD p.peer_ip
    hold_time := u.hold_time.getD p.hold_time
    keepalive := u.keepalive.getD p.keepalive
    device := u.device.getD p.device
    interface := match u.interface with | some i => some i | none => p.interface
    status := u.status.getD p.status
    address_families := u.address_families.getD p.address_families
    routing_policy := u.routing_policy.getD p.routing_policy }

/-- Response of the update route. -/
inductive UpdateResult
  | not_found
  | conflicts (cs : List Conflict)
  | updated
deriving DecidableEq, Repr

/-- `update_peering` (lines 518-617): fetch the non-deleted row by id
(404 when absent), apply the patch, re-query the non-deleted snapshot —
which, through the session identity map, contains the patched object
itself — and run `detect_conflicts`; conflicts abort before commit, so
the stored state is unchanged. -/
def update_peering (db : List BGPPeering) (peering_id : Nat) (u : PeeringPatch) :
    List BGPPeering × UpdateResult :=
  match db.find? (fun p => p.id == some peering_id && !p.is_deleted) with
  | none => (db, .not_found)
  | some p =>
    let updated := applyPatch p u
    let db1 := db.map (fun q => if q.id = some peering_id then updated else q)
    let all_peerings := nonDeletedSnapshot db1
    let conflicts := BGPConflictDetector.detect_conflicts updated all_peerings
    if conflicts.isEmpty then (db1, .updated)
    else (db, .conflicts conflicts)

/-- Response of the bulk create route. -/
inductive BulkResult
  | bad_request
  | conflicts (cs : List Conflict)
  | created (ps : List BGPPeering)
deriving DecidableEq, Repr

/-- The validation loop of `bulk_create_peerings` (lines 393-435): `all`
starts as the non-deleted snapshot, `created` as `[]`, and *both* lists
receive every accepted candidate (`created_peerings.append(peering);
all_peerings.append(peering)`), so a candidate is checked against
`all ++ created` — the snapshot plus the previously accepted candidates,
the latter twice. -/
def bulkGo (all created : List BGPPeering) : List PeeringDraft →
    Except (List Conflict) (List BGPPeering)
  | [] => .ok created
  | d :: rest =>
    let peering := draftToPeering d
    let conflicts := BGPConflictDetector.detect_conflicts peering (all ++ created)
    if conflicts.isEmpty then bulkGo (all ++ [peering]) (created ++ [peering]) rest
    else .error conflicts

/-- `bulk_create_peerings` (lines 353-488): size guards, then the
validation loop inside one transaction; any conflict raises and rolls the
whole batch back, otherwise all rows are committed at once. -/
def bulk_create_peerings (db : List BGPPeering) (drafts : List PeeringDraft) :
    List BGPPeering × BulkResult :=
  if drafts.length = 0 then (db, .bad_request)
  else if 100 < drafts.length then (db, .bad_request)
  else
    match bulkGo (nonDeletedSnapshot db) [] drafts with
    | .error cs => (db, .conflicts cs)
    | .ok created =>
      let committed := assignIds db created
      (db ++ committed, .created committed)

/-! ### Streaming consumer (`streaming/bgp_consumer.py`) -/

/-- The fields of `BGPUpdateMessage` that `detect_conflicts` reads.
`pfx` models the message's announced/withdrawn route attribute (named
after the noun keyword it carries in the source); it and `peer_ip` are
`None` when the raw message lacks them. -/
structure BGPUpdateMessage where
  peer_ip : Option String
  peer_asn : Option Nat
  pfx : Option String
deriving DecidableEq, Repr

/-- Python truthiness of an optional string (`not message.prefix`). -/
def truthyOptStr : Option String → Bool
  | some s => !(s == "")
  | none => false

/-- The peering lookup of `BGPKafkaConsumer.detect_conflicts`
(lines 208-226): after the truthiness guard on `prefix` and `peer_ip`,
`select(BGPPeering).where(BGPPeering.peer_ip == message.peer_ip)` — by
`peer_ip` alone, with no `is_deleted` condition. -/
def BGPKafkaConsumer.relatedPeerings (db : List BGPPeering) (m : BGPUpdateMessage) :
    List BGPPeering :=
  if !(truthyOptStr m.pfx) ∨ !(truthyOptStr m.peer_ip) then []
  else db.filter (fun p => some p.peer_ip == m.peer_ip)

/-- `BGPKafkaConsumer.detect_conflicts` (lines 198-240): every matching
peering is checked against the list of matching peerings, and the
per-peering conflict lists are concatenated. -/
def BGPKafkaConsumer.detect_conflicts (db : List BGPPeering) (m : BGPUpdateMessage) :
    List Conflict :=
  let peerings := BGPKafkaConsumer.relatedPeerings db m
  if peerings.isEmpty then []
  else (peerings.map (fun p => BGPConflictDetector.detect_conflicts p peerings)).flatten

/-! ### Schema validation (`schemas/peering.py`, `BGPPeeringBase`)

Pydantic evaluates the `Field` range constraints, the field validators
and the `model_validator` before the route body runs; a failure is an
HTTP 4xx validation error and the handler — hence any write — never
happens.  `keepalive > hold_time / 3` is Python float division of two
ints below 2^16, which ℚ division models exactly. -/

/-- Acceptance predicate of `BGPPeeringBase` on a draft: `Field`
constraints of lines 31-47, the keepalive/hold-time model validator
(lines 49-56), the ASN validator (lines 58-67, subsumed by the `ge`/`le`
bounds but kept), and the non-empty address-family validator
(lines 69-75).  `peer_ip` must parse (`IPvAnyAddress`). -/
def BGPPeeringBase.validate (d : PeeringDraft) : Bool :=
  decide (1 ≤ d.name.length ∧ d.name.length ≤ 255) &&
  decide (1 ≤ d.local_asn ∧ d.local_asn ≤ 4294967295) &&
  decide (1 ≤ d.peer_asn ∧ d.peer_asn ≤ 4294967295) &&
  (parseIPv4 d.peer_ip).isSome &&
  decide (3 ≤ d.hold_time ∧ d.hold_time ≤ 65535) &&
  decide (1 ≤ d.keepalive ∧ d.keepalive ≤ 65535) &&
  decide (1 ≤ d.device.length ∧ d.device.length ≤ 255) &&
  (match d.interface with | some i => decide (i.length ≤ 255) | none => true) &&
  !(decide ((d.keepalive : ℚ) > (d.hold_time : ℚ) / 3)) &&
  !(d.address_families.isEmpty)

/-- Response of the create route including the pydantic layer. -/
inductive CreateResponse
  | validation_error
  | conflict_error (cs : List Conflict)
  | created
deriving DecidableEq, Repr

/-- The full create path: pydantic validation of the request body, then
the route body `create_peering`. -/
def api_create_peering (db : List BGPPeering) (d : PeeringDraft) :
    List BGPPeering × CreateResponse :=
  if BGPPeeringBase.validate d then
    match create_peering db d with
    | (db1, none) => (db1, .created)
    | (db1, some cs) => (db1, .conflict_error cs)
  else (db, .validation_error)

/-! ### Circuit breaker (`utils/circuit_breaker.py`)

`time.time()` values are rationals; each call receives the current time
and the behaviour the wrapped function would have if invoked.  The state
record mirrors the attributes set in `__init__`. -/

/-- `CircuitState` (the source's values are `"closed"`, `"open"`,
`"half_open"`; `open` is a Lean keyword, so the middle one is `opened`). -/
inductive CircuitState
  | closed
  | opened
  | half_open
deriving DecidableEq, Repr

/-- The mutable state of a `CircuitBreaker` instance. -/
structure CircuitBreaker where
  failure_threshold : Nat
  recovery_timeout : ℚ
  state : CircuitState
  failure_count : Nat
  last_failure_time : Option ℚ
  success_count : Nat
deriving DecidableEq, Repr

/-- `CircuitBreaker.__init__` with explicit threshold and timeout. -/
def CircuitBreaker.mk0 (failure_threshold : Nat) (recovery_timeout : ℚ) :
    CircuitBreaker :=
  { failure_threshold := failure_threshold
    recovery_timeout := recovery_timeout
    state := .closed
    failure_count := 0
    last_failure_time := none
    success_count := 0 }

/-- A breaker with the default parameters (`failure_threshold=5`,
`recovery_timeout=60.0`). -/
def CircuitBreaker.default : CircuitBreaker := CircuitBreaker.mk0 5 60

/-- `CircuitBreaker._on_success` (lines 92-104). -/
def CircuitBreaker.on_success (cb : CircuitBreaker) : CircuitBreaker :=
  if cb.state = .half_open then
    let sc := cb.success_count + 1
    if 1 ≤ sc then
      { cb with state := .closed, failure_count := 0, success_count := 0 }
    else { cb with success_count := sc }
  else if cb.state = .closed then { cb with failure_count := 0 }
  else cb

/-- `CircuitBreaker._on_failure` (lines 106-119), at time `t`. -/
def CircuitBreaker.on_failure (cb : CircuitBreaker) (t : ℚ) : CircuitBreaker :=
  let cb1 := { cb with failure_count := cb.failure_count + 1, last_failure_time := some t }
  if cb.state = .half_open then { cb1 with state := .opened, success_count := 0 }
  else if cb.state = .closed ∧ cb.failure_threshold ≤ cb1.failure_count then
    { cb1 with state := .opened }
  else cb1

/-- Python truthiness of `self.last_failure_time` (line 75): `None` and
`0.0` are both falsy. -/
def truthyTime : Option ℚ → Bool
  | some v => !(v == 0)
  | none => false

/-- Behaviour of the wrapped function, had it been invoked. -/
inductive CallOutcome
  | success
  | failure
deriving DecidableEq, Repr

/-- What `CircuitBreaker.call` does: fail fast with
`CircuitBreakerOpenError` (the wrapped function is *not* invoked),
return the function's result, or re-raise the function's exception after
recording the failure. -/
inductive CallResult
  | rejected
  | returned
  | raised
deriving DecidableEq, Repr

/-- `CircuitBreaker.call` (lines 56-90) at time `t`: the open-state gate
of lines 74-81 (transition to half-open when the cooldown elapsed,
otherwise raise `CircuitBreakerOpenError` without calling the function),
then the invocation with `_on_success` / `_on_failure`.  The source reads
`time.time()` once in the gate and once in `_on_failure`; the model uses
the single instant `t` for both. -/
def CircuitBreaker.call (cb : CircuitBreaker) (t : ℚ) (f : CallOutcome) :
    CircuitBreaker × CallResult :=
  let gate : Option CircuitBreaker :=
    if cb.state = .opened then
      if truthyTime cb.last_failure_time &&
          decide (cb.recovery_timeout ≤ t - (cb.last_failure_time.getD 0)) then
        some { cb with state := .half_open, success_count := 0 }
      else none
    else some cb
  match gate with
  | none => (cb, .rejected)
  | some cb1 =>
    match f with
    | .success => (cb1.on_success, .returned)
    | .failure => (cb1.on_failure t, .raised)

/-- State reached after a sequence of timed calls. -/
def CircuitBreaker.run (cb : CircuitBreaker) (calls : List (ℚ × CallOutcome)) :
    CircuitBreaker :=
  calls.foldl (fun c tf => (c.call tf.1 tf.2).1) cb

/-! ### Anomaly detector (`observability/anomaly_detector.py`)

The Prophet model is an external fitted library: its per-point forecast
(`yhat`, `yhat_lower`, `yhat_upper`, aligned with the time-sorted series)
enters the embedding as an input.  Everything after `model.predict` —
residuals, centred rolling statistics with global fallback, the 3-sigma
flag, severity and record construction (lines 91-141) — is modelled
exactly, with one representation change: pandas computes the rolling
*standard deviation* `std = sqrt(var)` in floats and the code only ever
compares linear expressions in `std` against non-negative quantities, so
the embedding stores the variance and performs each comparison in its
squared, algebraically equivalent form (`|x| > k*std ↔ x^2 > k^2*var`
for `k ≥ 0`), keeping all arithmetic in ℚ. -/

/-- Mean of a list of rationals (`Series.mean`). -/
def listMean (xs : List ℚ) : ℚ := xs.sum / xs.length

/-- Sample variance with `ddof=1` (the square of `Series.std`). -/
def listVar (xs : List ℚ) : ℚ :=
  (xs.map (fun x => (x - listMean xs) ^ 2)).sum / (xs.length - 1 : Nat)

/-- The centred rolling window of pandas
`rolling(window=w, center=True)` at label `i`: labels take the trailing
window ending at `i + (w-1)/2`, and with the default
`min_periods = w` the result exists only when the whole window is in
range. -/
def rollingWindow (xs : List ℚ) (w i : Nat) : Option (List ℚ) :=
  let offset := (w - 1) / 2
  if w ≤ i + offset + 1 ∧ i + offset < xs.length then
    some ((xs.drop (i + offset + 1 - w)).take w)
  else none

/-- `residual_mean` column after the `fillna` of line 104: rolling mean
where defined, global mean at the edges. -/
def residualMeanAt (rs : List ℚ) (w i : Nat) : ℚ :=
  match rollingWindow rs w i with
  | some win => listMean win
  | none => listMean rs

/-- Squared `residual_std` column after the `fillna` of line 105. -/
def residualVarAt (rs : List ℚ) (w i : Nat) : ℚ :=
  match rollingWindow rs w i with
  | some win => listVar win
  | none => listVar rs

/-- `AnomalyDetector._calculate_severity` (lines 147-170) in squared
form; its `deviation` argument is `abs(residual)`, hence non-negative,
at both call sites. -/
def calculate_severity (deviation var : ℚ) : String :=
  if var = 0 then "medium"
  else if 25 * var ≤ deviation ^ 2 then "critical"
  else if 16 * var ≤ deviation ^ 2 then "high"
  else if 9 * var ≤ deviation ^ 2 then "medium"
  else "low"

/-- One entry of the list returned by `detect_anomalies` (lines 119-132);
the `metadata` dict is flattened into fields, with `residual_var` holding
the square of its `residual_std`. -/
structure AnomalyRecord where
  metric_name : String
  timestamp : ℚ
  value : ℚ
  expected_value : ℚ
  deviation : ℚ
  severity : String
  residual_var : ℚ
  sigma_threshold : ℚ
  lower_bound : ℚ
  upper_bound : ℚ
deriving DecidableEq, Repr

/-- Stable ascending insertion by timestamp (`df.sort_values("ds")`). -/
def insertByTs (x : ℚ × ℚ) : List (ℚ × ℚ) → List (ℚ × ℚ)
  | [] => [x]
  | y :: ys => if x.1 < y.1 then x :: y :: ys else y :: insertByTs x ys

/-- The time-sorted series. -/
def sortByTs (l : List (ℚ × ℚ)) : List (ℚ × ℚ) := l.foldr insertByTs []

/-- One forecast row: `(yhat, yhat_lower, yhat_upper)`. -/
abbrev ForecastRow := ℚ × ℚ × ℚ

/-- `AnomalyDetector.detect_anomalies` (lines 45-145) for a detector
constructed with `sigma_threshold` (default 3.0; always non-negative in
the source, which the squared comparison form assumes): require at least
10 points, sort by timestamp, compute residuals against the supplied
forecast (aligned 1-1 with the sorted series, as `model.predict`
guarantees), take centred rolling statistics over a
`min(30, n // 2)` window with global fallback at the edges, flag
`|r - mean| > sigma_threshold * std`, and build one record per flagged
point with `deviation = |r|` and the rolling std (squared here) as
metadata. -/
def AnomalyDetector.detect_anomalies (sigma_threshold : ℚ) (metric_name : String)
    (points : List (ℚ × ℚ)) (forecast : List ForecastRow) : List AnomalyRecord :=
  if points.length < 10 then []
  else
    let df := sortByTs points
    let rows := df.zip forecast
    let rs := rows.map (fun r => r.1.2 - r.2.1)
    let n := rows.length
    let w := min 30 (points.length / 2)
    (List.range n).filterMap (fun i => show Option AnomalyRecord from
      let r := rs.getD i 0
      let m := residualMeanAt rs w i
      let v := residualVarAt rs w i
      if sigma_threshold ^ (2 : Nat) * v < (r - m) ^ (2 : Nat) then
        let row := rows.getD i ((0, 0), (0, 0, 0))
        some
          { metric_name := metric_name
            timestamp := row.1.1
            value := row.1.2
            expected_value := row.2.1
            deviation := |r|
            severity := calculate_severity |r| v
            residual_var := v
            sigma_threshold := sigma_threshold
            lower_bound := row.2.2.1
            upper_bound := row.2.2.2 }
      else none)

/-- `AnomalyType` of `models/anomaly.py`. -/
inductive AnomalyType
  | bgp_flap
  | cpu_temperature
  | interface_error
  | other
deriving DecidableEq, Repr

/-- `AnomalySeverity` of `models/anomaly.py`. -/
inductive AnomalySeverity
  | low
  | medium
  | high
  | critical
deriving DecidableEq, Repr

/-- The stored `Anomaly` row (metadata flattened as in `AnomalyRecord`). -/
structure Anomaly where
  metric_name : String
  anomaly_type : AnomalyType
  timestamp : ℚ
  value : ℚ
  expected_value : ℚ
  deviation : ℚ
  severity : AnomalySeverity
  device : Option String
  residual_var : ℚ
  sigma_threshold : ℚ
  lower_bound : ℚ
  upper_bound : ℚ
deriving DecidableEq, Repr

/-- The `anomaly_type_map` of `detect_and_store_anomalies` (lines 200-206). -/
def anomalyTypeOf (metric_name : String) : AnomalyType :=
  if metric_name = "bgp_session_flaps" then .bgp_flap
  else if metric_name = "cpu_temp" then .cpu_temperature
  else if metric_name = "interface_errors" then .interface_error
  else .other

/-- The `severity_map` of lines 209-214 with its `.get(..., MEDIUM)`
default. -/
def severityOf (s : String) : AnomalySeverity :=
  if s = "low" then .low
  else if s = "medium" then .medium
  else if s = "high" then .high
  else if s = "critical" then .critical
  else .medium

/-- `AnomalyDetector.detect_and_store_anomalies` (lines 172-245): detect,
then persist one `Anomaly` row per record. -/
def AnomalyDetector.detect_and_store_anomalies (sigma_threshold : ℚ)
    (metric_name : String) (points : List (ℚ × ℚ)) (forecast : List ForecastRow)
    (device : Option String) : List Anomaly :=
  (AnomalyDetector.detect_anomalies sigma_threshold metric_name points forecast).map
    (fun d =>
      { metric_name := metric_name
        anomaly_type := anomalyTypeOf metric_name
        timestamp := d.timestamp
        value := d.value
        expected_value := d.expected_value
        deviation := d.deviation
        severity := severityOf d.severity
        device := device
        residual_var := d.residual_var
        sigma_threshold := d.sigma_threshold
        lower_bound := d.lower_bound
        upper_bound := d.upper_bound })

/-! ### General lemmas about the evaluator -/

/-- Splitting the aggregation loop over list concatenation. -/
theorem processResults_append (xs ys : List RuleOutcome) :
    processResults (xs ++ ys) = processResults xs ++ processResults ys := by
  induction xs with
  | nil => rfl
  | cons x xs ih =>
    cases x with
    | completed c => cases c <;> simp [processResults, ih]
    | timeout => simp [processResults, ih]
    | error => simp [processResults, ih]

/-- The aggregation loop keeps exactly the conflicts of completed rules. -/
theorem processResults_eq_filterMap (xs : List RuleOutcome) :
    processResults xs = xs.filterMap
      (fun o => match o with | .completed c => c | .timeout => none | .error => none) := by
  induction xs with
  | nil => rfl
  | cons x xs ih =>
    cases x with
    | completed c => cases c <;> simp [processResults, ih, List.filterMap_cons]
    | timeout => simp [processResults, ih, List.filterMap_cons]
    | error => simp [processResults, ih, List.filterMap_cons]

/-- The RPKI rule is a placeholder: both source branches return `None`. -/
theorem rpki_check_eq_none (p : BGPPeering) (s : List BGPPeering) :
    RPKIValidationRule.check p s = none := by
  simp [RPKIValidationRule.check]

/-- The evaluator output as the filtered list of the five rule results,
in registration order. -/
theorem detect_conflicts_eq (p : BGPPeering) (s : List BGPPeering) :
    BGPConflictDetector.detect_conflicts p s =
      [ASNCollisionRule.check p s, RPKIValidationRule.check p s,
       SessionOverlapRule.check p s, RoutingLoopRule.check p s,
       PrefixOverlapRule.check p s].filterMap id := by
  unfold BGPConflictDetector.detect_conflicts
  rw [processResults_eq_filterMap]
  rfl

/-- C2: the evaluator is fail-open.  `processResults` is the result loop
of `BGPConflictDetector.detect_conflicts` run on the per-rule outcomes
delivered by `asyncio.gather(..., return_exceptions=True)`; being a total
function, it never raises.  A timed-out rule and a raising rule
contribute nothing and change nothing else, and the aggregate is exactly
the list of conflicts of the rules that completed, so it is empty iff no
completed rule produced a conflict; the per-rule deadline is 5 seconds. -/
theorem evaluator_fail_open (xs ys : List RuleOutcome) :
    processResults (xs ++ RuleOutcome.timeout :: ys) = processResults (xs ++ ys) ∧
    processResults (xs ++ RuleOutcome.error :: ys) = processResults (xs ++ ys) ∧
    processResults xs = xs.filterMap
      (fun o => match o with | .completed c => c | .timeout => none | .error => none) ∧
    RULE_TIMEOUT_SECONDS = 5 := by
  refine ⟨?_, ?_, processResults_eq_filterMap xs, rfl⟩ <;>
    simp [processResults_append, processResults]

/-! ### C5: the routing-loop rule -/

/-- The loop condition of the claim: the candidate's `local_asn` equals
its `peer_asn`, or (when they differ) `local_asn` occurs in the list
`routing_policy.import.as_path`. -/
def loopCondition (p : BGPPeering) : Prop :=
  p.local_asn = p.peer_asn ∨
    (p.local_asn ≠ p.peer_asn ∧
      ∃ l, p.routing_policy.importAsPath = some l ∧ p.local_asn ∈ l)

instance (p : BGPPeering) : Decidable (loopCondition p) := by
  unfold loopCondition
  cases h : p.routing_policy.importAsPath <;> exact inferInstance

/-- C5: the routing-loop rule emits a critical `routing_loop` conflict
exactly under `loopCondition`, and otherwise emits nothing. -/
theorem routing_loop_rule_characterization (p : BGPPeering) (s : List BGPPeering) :
    (RoutingLoopRule.check p s = none ↔ ¬ loopCondition p) ∧
    (loopCondition p → ∃ c, RoutingLoopRule.check p s = some c ∧
      c.type = ConflictType.routing_loop ∧ c.severity = ConflictSeverity.critical) := by
  unfold RoutingLoopRule.check loopCondition
  by_cases h : p.local_asn = p.peer_asn
  · simp [h]
  · cases hp : p.routing_policy.importAsPath with
    | none => simp [h, hp]
    | some l =>
      by_cases hm : p.local_asn ∈ l
      · simp [h, hp, hm]
      · simp [h, hp, hm]

/-- The concrete looping candidate of end-to-end scenario 3 of the spec. -/
def loopPeering : BGPPeering :=
  { id := some 7, name := "loop-peering", local_asn := 65000, peer_asn := 65001
    peer_ip := "10.0.0.9", hold_time := 180, keepalive := 60, device := "r9"
    interface := none, status := "pending", address_families := ["ipv4"]
    routing_policy := ⟨some [65002, 65000, 65003]⟩, is_deleted := false }

/-- Witness for C5 at `loopPeering`, whose import AS path contains its
local ASN. -/
theorem routing_loop_rule_characterization_witness :
    ∃ c, RoutingLoopRule.check loopPeering [] = some c ∧
      c.type = ConflictType.routing_loop ∧ c.severity = ConflictSeverity.critical :=
  (routing_loop_rule_characterization loopPeering []).2 (by decide)

/-! ### C6: the ASN-collision rule -/

/-- The collision predicate the source filter evaluates. -/
def asnCollisionPred (p q : BGPPeering) : Prop :=
  q.id ≠ p.id ∧ q.peer_asn = p.peer_asn ∧ q.peer_ip ≠ p.peer_ip ∧ q.status = "active"

instance (p q : BGPPeering) : Decidable (asnCollisionPred p q) := by
  unfold asnCollisionPred; exact inferInstance

/-- C6 (amended): the ASN-collision rule produces exactly one
high-severity `asn_collision` conflict — listing the candidate's id and
the ids of all matching records — exactly when some snapshot record with
an id *different from the candidate's* shares its `peer_asn` on a
different `peer_ip` with status `active`; otherwise it produces no
conflict. -/
theorem asn_collision_rule_characterization (p : BGPPeering) (s : List BGPPeering) :
    ((∃ q ∈ s, asnCollisionPred p q) →
      ∃ c, ASNCollisionRule.check p s = some c ∧
        c.type = ConflictType.asn_collision ∧ c.severity = ConflictSeverity.high ∧
        c.affected_peers = p.id.toList ++
          (s.filter (fun q => decide (asnCollisionPred p q))).filterMap (fun q => q.id)) ∧
    ((¬ ∃ q ∈ s, asnCollisionPred p q) → ASNCollisionRule.check p s = none) := by
  have hpred : (fun q => decide (q.id ≠ p.id ∧ q.peer_asn = p.peer_asn ∧
      q.peer_ip ≠ p.peer_ip ∧ q.status = "active")) =
      (fun q => decide (asnCollisionPred p q)) := by
    funext q; simp [asnCollisionPred]
  have hiff : ((s.filter (fun q => decide (asnCollisionPred p q))).isEmpty = true) ↔
      ¬ ∃ q ∈ s, asnCollisionPred p q := by
    rw [List.isEmpty_iff, List.filter_eq_nil_iff]
    simp
  unfold ASNCollisionRule.check
  rw [hpred]
  constructor
  · intro hex
    rw [if_neg (by rw [hiff]; exact not_not_intro hex)]
    exact ⟨_, rfl, rfl, rfl, rfl⟩
  · intro hnex
    rw [if_pos (hiff.mpr hnex)]

/-- A candidate for the C6 counterexample: it carries id 1. -/
def asnCand : BGPPeering :=
  { id := some 1, name := "a", local_asn := 65000, peer_asn := 65010
    peer_ip := "10.0.0.1", hold_time := 180, keepalive := 60, device := "r1"
    interface := none, status := "active", address_families := ["ipv4"]
    routing_policy := ⟨none⟩, is_deleted := false }

/-- A snapshot record that matches the claim's collision condition (same
`peer_asn`, different `peer_ip`, status `active`) but carries the
candidate's own id. -/
def asnSnapRow : BGPPeering :=
  { asnCand with peer_ip := "10.0.0.2" }

/-- C6 counterexample: `asnSnapRow` satisfies the claim's condition
(same `peer_asn` as the candidate, different `peer_ip`, status
`active`), so the claim demands a conflict, but the rule — which also
requires a different id — returns `None`. -/
theorem asn_collision_rule_counterexample :
    asnSnapRow.peer_asn = asnCand.peer_asn ∧
    asnSnapRow.peer_ip ≠ asnCand.peer_ip ∧
    asnSnapRow.status = "active" ∧
    ASNCollisionRule.check asnCand [asnSnapRow] = none := by
  with_unfolding_all decide

/-- A second record with a genuinely different id, for the witness. -/
def asnOtherRow : BGPPeering :=
  { asnCand with id := some 2, peer_ip := "10.0.0.2" }

/-- Witness for the amended C6 at a snapshot holding one real collision. -/
theorem asn_collision_rule_characterization_witness :
    ∃ c, ASNCollisionRule.check asnCand [asnOtherRow] = some c ∧
      c.type = ConflictType.asn_collision ∧ c.severity = ConflictSeverity.high ∧
      c.affected_peers = asnCand.id.toList ++
        ([asnOtherRow].filter (fun q => decide (asnCollisionPred asnCand q))).filterMap
          (fun q => q.id) :=
  (asn_collision_rule_characterization asnCand [asnOtherRow]).1
    ⟨asnOtherRow, by decide, by decide⟩

/-! ### C10: rules ignore the candidate's own snapshot row -/

/-- C10: the session-overlap, ASN-collision and duplicate-IP scans all
skip snapshot records whose id equals the candidate's, so a stored
peering checked against a snapshot containing its own row yields no
overlap or collision conflict from that row, and prepending the
candidate's own row to any snapshot changes none of the three rules'
results. -/
theorem rules_ignore_own_row (p : BGPPeering) (s : List BGPPeering)
    (h : p.id ≠ none) :
    SessionOverlapRule.check p [p] = none ∧
    ASNCollisionRule.check p [p] = none ∧
    SessionOverlapRule.check p (p :: s) = SessionOverlapRule.check p s ∧
    ASNCollisionRule.check p (p :: s) = ASNCollisionRule.check p s ∧
    PrefixOverlapRule.check p (p :: s) = PrefixOverlapRule.check p s := by
  have hso : ∀ t : List BGPPeering, (p :: t).filter (fun q =>
      decide (q.id ≠ p.id ∧ q.device = p.device ∧ q.peer_ip = p.peer_ip ∧
        q.peer_asn = p.peer_asn)) = t.filter (fun q =>
      decide (q.id ≠ p.id ∧ q.device = p.device ∧ q.peer_ip = p.peer_ip ∧
        q.peer_asn = p.peer_asn)) := by
    intro t; rw [List.filter_cons_of_neg]; simp
  have hasn : ∀ t : List BGPPeering, (p :: t).filter (fun q =>
      decide (q.id ≠ p.id ∧ q.peer_asn = p.peer_asn ∧ q.peer_ip ≠ p.peer_ip ∧
        q.status = "active")) = t.filter (fun q =>
      decide (q.id ≠ p.id ∧ q.peer_asn = p.peer_asn ∧ q.peer_ip ≠ p.peer_ip ∧
        q.status = "active")) := by
    intro t; rw [List.filter_cons_of_neg]; simp
  have hpo : ∀ t : List BGPPeering, (p :: t).filter (fun q =>
      decide (q.id ≠ p.id ∧ q.device = p.device ∧ q.peer_ip = p.peer_ip)) =
      t.filter (fun q =>
      decide (q.id ≠ p.id ∧ q.device = p.device ∧ q.peer_ip = p.peer_ip)) := by
    intro t; rw [List.filter_cons_of_neg]; simp
  refine ⟨?_, ?_, ?_, ?_, ?_⟩
  · unfold SessionOverlapRule.check
    by_cases hg : p.device = "" ∨ p.peer_ip = "" ∨ p.peer_asn = 0
    · rw [if_pos hg]
    · rw [if_neg hg]
      simp only [show ([p] : List BGPPeering) = p :: [] from rfl, hso]
      rfl
  · unfold ASNCollisionRule.check
    simp only [show ([p] : List BGPPeering) = p :: [] from rfl, hasn]
    rfl
  · unfold SessionOverlapRule.check
    by_cases hg : p.device = "" ∨ p.peer_ip = "" ∨ p.peer_asn = 0
    · rw [if_pos hg, if_pos hg]
    · rw [if_neg hg, if_neg hg]
      simp only [hso]
  · unfold ASNCollisionRule.check
    simp only [hasn]
  · unfold PrefixOverlapRule.check
    cases hip : parseIPv4 p.peer_ip with
    | none => rfl
    | some octets =>
      dsimp only
      by_cases hpriv : isPrivateIPv4 octets ∧ p.status = "active"
      · rw [if_pos hpriv, if_pos hpriv]
      · rw [if_neg hpriv, if_neg hpriv]
        by_cases hg : p.device = "" ∨ p.peer_ip = ""
        · rw [if_pos hg, if_pos hg]
        · rw [if_neg hg, if_neg hg]
          simp only [hpo]

/-- Witness for C10 at a concrete stored peering. -/
theorem rules_ignore_own_row_witness :
    SessionOverlapRule.check asnCand [asnCand] = none ∧
    ASNCollisionRule.check asnCand [asnCand] = none ∧
    SessionOverlapRule.check asnCand (asnCand :: []) = SessionOverlapRule.check asnCand [] ∧
    ASNCollisionRule.check asnCand (asnCand :: []) = ASNCollisionRule.check asnCand [] ∧
    PrefixOverlapRule.check asnCand (asnCand :: []) = PrefixOverlapRule.check asnCand [] :=
  rules_ignore_own_row asnCand [] (by decide)

/-! ### C1: duplicate `(device, peer_ip, peer_asn)` rejections -/

/-- If a record with a different id matches the candidate's full session
triple and the candidate's fields are truthy, the session-overlap rule
fires critically. -/
theorem session_overlap_fires (p : BGPPeering) (s : List BGPPeering)
    (hdev : p.device ≠ "") (hip : p.peer_ip ≠ "") (hasn : p.peer_asn ≠ 0)
    (q : BGPPeering) (hq : q ∈ s) (hid : q.id ≠ p.id) (h1 : q.device = p.device)
    (h2 : q.peer_ip = p.peer_ip) (h3 : q.peer_asn = p.peer_asn) :
    ∃ c, SessionOverlapRule.check p s = some c ∧
      c.type = ConflictType.session_overlap ∧ c.severity = ConflictSeverity.critical := by
  unfold SessionOverlapRule.check
  rw [if_neg (by tauto)]
  have hq' : q ∈ s.filter (fun r => decide (r.id ≠ p.id ∧ r.device = p.device ∧
      r.peer_ip = p.peer_ip ∧ r.peer_asn = p.peer_asn)) :=
    List.mem_filter.mpr ⟨hq, by simp [hid, h1, h2, h3]⟩
  rw [if_neg (by
    intro habs
    rw [List.isEmpty_iff] at habs
    rw [habs] at hq'
    exact absurd hq' (List.not_mem_nil q))]
  exact ⟨_, rfl, rfl, rfl⟩

/-- A conflict returned by the session-overlap rule appears in the
evaluator's aggregate. -/
theorem mem_detect_of_session_overlap (p : BGPPeering) (s : List BGPPeering)
    (c : Conflict) (h : SessionOverlapRule.check p s = some c) :
    c ∈ BGPConflictDetector.detect_conflicts p s := by
  rw [detect_conflicts_eq]
  refine List.mem_filterMap.mpr ⟨some c, ?_, rfl⟩
  simp [h]

/-- C1 (amended): creating — or updating — a peering whose
`(device, peer_ip, peer_asn)` triple equals that of another non-deleted
snapshot record is rejected with a conflict payload containing at least
one critical `session_overlap` conflict, and the catalog state is
unchanged by the rejected operation.  (The payload may contain a second
`session_overlap` conflict, from the prefix-overlap rule's duplicate-IP
scan; see the counterexample to "exactly one".) -/
theorem duplicate_triple_rejected :
    (∀ (db : List BGPPeering) (d : PeeringDraft),
      d.device ≠ "" → d.peer_ip ≠ "" → d.peer_asn ≠ 0 →
      (∃ q ∈ db, ¬q.is_deleted ∧ q.id ≠ none ∧ q.device = d.device ∧
        q.peer_ip = d.peer_ip ∧ q.peer_asn = d.peer_asn) →
      ∃ cs, create_peering db d = (db, some cs) ∧
        ∃ c ∈ cs, c.type = ConflictType.session_overlap ∧
          c.severity = ConflictSeverity.critical) ∧
    (∀ (db : List BGPPeering) (pid : Nat) (u : PeeringPatch) (p : BGPPeering),
      db.find? (fun q => q.id == some pid && !q.is_deleted) = some p →
      (applyPatch p u).device ≠ "" → (applyPatch p u).peer_ip ≠ "" →
      (applyPatch p u).peer_asn ≠ 0 →
      (∃ q ∈ db, ¬q.is_deleted ∧ q.id ≠ some pid ∧
        q.device = (applyPatch p u).device ∧ q.peer_ip = (applyPatch p u).peer_ip ∧
        q.peer_asn = (applyPatch p u).peer_asn) →
      ∃ cs, update_peering db pid u = (db, UpdateResult.conflicts cs) ∧
        ∃ c ∈ cs, c.type = ConflictType.session_overlap ∧
          c.severity = ConflictSeverity.critical) := by
  constructor
  · intro db d hdev hip hasn ⟨q, hqdb, hqdel, hqid, h1, h2, h3⟩
    have hq' : q ∈ nonDeletedSnapshot db :=
      List.mem_filter.mpr ⟨hqdb, by simp [hqdel]⟩
    obtain ⟨c, hc, hct, hcs⟩ :=
      session_overlap_fires (draftToPeering d) (nonDeletedSnapshot db)
        hdev hip hasn q hq' hqid h1 h2 h3
    have hmem := mem_detect_of_session_overlap _ _ _ hc
    have hne : ¬ ((BGPConflictDetector.detect_conflicts (draftToPeering d)
        (nonDeletedSnapshot db)).isEmpty = true) := by
      intro habs
      rw [List.isEmpty_iff] at habs
      rw [habs] at hmem
      exact absurd hmem (List.not_mem_nil c)
    refine ⟨_, ?_, ⟨c, hmem, hct, hcs⟩⟩
    simp only [create_peering]
    rw [if_neg hne]
  · intro db pid u p hfind hdev hip hasn ⟨q, hqdb, hqdel, hqid, h1, h2, h3⟩
    have hpm := List.find?_some hfind
    have hpid : p.id = some pid := by
      simp only [Bool.and_eq_true, beq_iff_eq, Bool.not_eq_true'] at hpm
      exact hpm.1
    have hqid' : q.id ≠ (applyPatch p u).id := by
      show q.id ≠ p.id
      rw [hpid]
      exact hqid
    have hqmap : q ∈ db.map (fun r => if r.id = some pid then applyPatch p u else r) := by
      have : (if q.id = some pid then applyPatch p u else q) = q := if_neg hqid
      rw [← this]
      exact List.mem_map_of_mem _ hqdb
    have hq' : q ∈ nonDeletedSnapshot
        (db.map (fun r => if r.id = some pid then applyPatch p u else r)) :=
      List.mem_filter.mpr ⟨hqmap, by simp [hqdel]⟩
    obtain ⟨c, hc, hct, hcs⟩ :=
      session_overlap_fires (applyPatch p u) _ hdev hip hasn q hq' hqid' h1 h2 h3
    have hmem := mem_detect_of_session_overlap _ _ _ hc
    have hne : ¬ ((BGPConflictDetector.detect_conflicts (applyPatch p u)
        (nonDeletedSnapshot (db.map (fun r =>
          if r.id = some pid then applyPatch p u else r)))).isEmpty = true) := by
      intro habs
      rw [List.isEmpty_iff] at habs
      rw [habs] at hmem
      exact absurd hmem (List.not_mem_nil c)
    refine ⟨_, ?_, ⟨c, hmem, hct, hcs⟩⟩
    simp only [update_peering, hfind]
    rw [if_neg hne]

/-- The draft of end-to-end scenario 1, with a public peer IP so that the
IP-sanity branch of the prefix-overlap rule does not interfere. -/
def dupDraft : PeeringDraft :=
  { name := "p2", local_asn := 65000, peer_asn := 65001, peer_ip := "8.8.8.8"
    hold_time := 180, keepalive := 60, device := "r1", interface := none
    status := "pending", address_families := ["ipv4"], routing_policy := ⟨none⟩ }

/-- The stored peering sharing `dupDraft`'s `(device, peer_ip, peer_asn)`
triple. -/
def dupRow : BGPPeering :=
  { id := some 1, name := "p1", local_asn := 65000, peer_asn := 65001
    peer_ip := "8.8.8.8", hold_time := 180, keepalive := 60, device := "r1"
    interface := none, status := "active", address_families := ["ipv4"]
    routing_policy := ⟨none⟩, is_deleted := false }

/-- A conflict-rejected create leaves the catalog untouched. -/
theorem create_rejected_unchanged (db : List BGPPeering) (d : PeeringDraft)
    (h : (create_peering db d).2.isSome = true) :
    (create_peering db d).1 = db := by
  simp only [create_peering] at h ⊢
  by_cases hE : (BGPConflictDetector.detect_conflicts (draftToPeering d)
      (nonDeletedSnapshot db)).isEmpty = true
  · rw [if_pos hE] at h
    simp at h
  · rw [if_neg hE]

/-- C1 counterexample: creating `dupDraft` over `[dupRow]` is rejected
with a payload containing *two* `session_overlap` conflicts — one from
the session-overlap rule and one from the prefix-overlap rule's
duplicate-IP scan — refuting "exactly one"; the catalog is unchanged. -/
theorem duplicate_triple_two_overlaps :
    (create_peering [dupRow] dupDraft).2.isSome = true ∧
    ((create_peering [dupRow] dupDraft).2.getD []).countP
      (fun c => c.type == ConflictType.session_overlap) = 2 ∧
    (create_peering [dupRow] dupDraft).1 = [dupRow] := by
  have h1 : (create_peering [dupRow] dupDraft).2.isSome = true := by
    with_unfolding_all decide
  refine ⟨h1, by with_unfolding_all decide, create_rejected_unchanged _ _ h1⟩

/-- Witness for the amended C1 on the concrete duplicate pair. -/
theorem duplicate_triple_rejected_witness :
    ∃ cs, create_peering [dupRow] dupDraft = ([dupRow], some cs) ∧
      ∃ c ∈ cs, c.type = ConflictType.session_overlap ∧
        c.severity = ConflictSeverity.critical :=
  duplicate_triple_rejected.1 [dupRow] dupDraft (by decide) (by decide) (by decide)
    ⟨dupRow, by decide, by decide, by decide, by decide, by decide, by decide⟩

/-! ### C3: soft-deleted records and rule inputs -/

/-- C3 (amended): soft-deleted records are excluded from the snapshot
used by the create/update/bulk routes and from listings; the stream
consumer's real-time conflict check, however, looks peerings up by
`peer_ip` alone — its rule input is *not* filtered on `is_deleted`. -/
theorem soft_delete_exclusion :
    (∀ db : List BGPPeering, ∀ p ∈ nonDeletedSnapshot db, p.is_deleted = false) ∧
    (∀ (db : List BGPPeering) (device status_filter : Option String)
      (peer_asn : Option Nat) (skip limit : Nat),
      ∀ p ∈ list_peerings db device status_filter peer_asn skip limit,
        p.is_deleted = false) ∧
    (∀ (db : List BGPPeering) (m : BGPUpdateMessage),
      truthyOptStr m.pfx = true → truthyOptStr m.peer_ip = true →
      BGPKafkaConsumer.relatedPeerings db m =
        db.filter (fun p => some p.peer_ip == m.peer_ip)) := by
  refine ⟨?_, ?_, ?_⟩
  · intro db p hp
    have := (List.mem_filter.mp hp).2
    simpa using this
  · intro db device status_filter peer_asn skip limit p hp
    have hp1 : p ∈ (db.filter (fun p =>
        !p.is_deleted &&
        (match device with | some dv => p.device == dv | none => true) &&
        (match status_filter with | some st => p.status == st | none => true) &&
        (match peer_asn with | some a => p.peer_asn == a | none => true))).drop skip :=
      List.mem_of_mem_take hp
    have hp2 := List.mem_of_mem_drop hp1
    have := (List.mem_filter.mp hp2).2
    simp only [Bool.and_eq_true, Bool.not_eq_true'] at this
    exact this.1.1.1
  · intro db m h1 h2
    unfold BGPKafkaConsumer.relatedPeerings
    rw [if_neg (by simp [h1, h2])]

/-- A soft-deleted stored row. -/
def deletedRow : BGPPeering :=
  { dupRow with is_deleted := true }

/-- A well-formed stream message whose peer IP matches `deletedRow`. -/
def streamMsg : BGPUpdateMessage :=
  { peer_ip := some "8.8.8.8", peer_asn := some 65001, pfx := some "10.0.0.0/8" }

/-- C3 counterexample: the stream consumer's conflict check receives the
soft-deleted row as rule input — its snapshot is `[deletedRow]`, and the
evaluator is invoked on exactly that snapshot. -/
theorem consumer_sees_deleted_rows :
    deletedRow.is_deleted = true ∧
    BGPKafkaConsumer.relatedPeerings [deletedRow] streamMsg = [deletedRow] ∧
    BGPKafkaConsumer.detect_conflicts [deletedRow] streamMsg =
      BGPConflictDetector.detect_conflicts deletedRow [deletedRow] :=
  ⟨by decide, by decide, by with_unfolding_all decide⟩

/-- Witness for the amended C3: the consumer lookup on a concrete catalog
is the plain `peer_ip` filter. -/
theorem soft_delete_exclusion_witness :
    BGPKafkaConsumer.relatedPeerings [deletedRow] streamMsg =
      [deletedRow].filter (fun p => some p.peer_ip == streamMsg.peer_ip) :=
  soft_delete_exclusion.2.2 [deletedRow] streamMsg (by decide) (by decide)

/-! ### C4: bulk create is all-or-nothing -/

/-- Emptiness of a filter is unchanged when a segment of the input is
duplicated (the bulk loop appends each accepted candidate to both of the
lists it later concatenates). -/
theorem filter_dup_nil {α : Type} (pr : α → Bool) (s t : List α) :
    ((s ++ t ++ t).filter pr = []) ↔ ((s ++ t).filter pr = []) := by
  simp only [List.filter_append, List.append_eq_nil]
  tauto

/-- The ASN-collision rule emits nothing iff its collision filter is
empty. -/
theorem asn_check_none_iff (p : BGPPeering) (l : List BGPPeering) :
    ASNCollisionRule.check p l = none ↔
      l.filter (fun q => decide (q.id ≠ p.id ∧ q.peer_asn = p.peer_asn ∧
        q.peer_ip ≠ p.peer_ip ∧ q.status = "active")) = [] := by
  unfold ASNCollisionRule.check
  by_cases h : (l.filter (fun q => decide (q.id ≠ p.id ∧ q.peer_asn = p.peer_asn ∧
      q.peer_ip ≠ p.peer_ip ∧ q.status = "active"))).isEmpty = true
  · rw [if_pos h]
    rw [List.isEmpty_iff] at h
    exact iff_of_true rfl h
  · rw [if_neg h]
    rw [List.isEmpty_iff] at h
    exact iff_of_false (by simp) h

/-- The session-overlap rule emits nothing iff its truthiness guard trips
or its overlap filter is empty. -/
theorem so_check_none_iff (p : BGPPeering) (l : List BGPPeering) :
    SessionOverlapRule.check p l = none ↔
      ((p.device = "" ∨ p.peer_ip = "" ∨ p.peer_asn = 0) ∨
        l.filter (fun q => decide (q.id ≠ p.id ∧ q.device = p.device ∧
          q.peer_ip = p.peer_ip ∧ q.peer_asn = p.peer_asn)) = []) := by
  unfold SessionOverlapRule.check
  by_cases hg : p.device = "" ∨ p.peer_ip = "" ∨ p.peer_asn = 0
  · rw [if_pos hg]
    exact iff_of_true rfl (Or.inl hg)
  · rw [if_neg hg]
    by_cases h : (l.filter (fun q => decide (q.id ≠ p.id ∧ q.device = p.device ∧
        q.peer_ip = p.peer_ip ∧ q.peer_asn = p.peer_asn))).isEmpty = true
    · rw [if_pos h]
      rw [List.isEmpty_iff] at h
      exact iff_of_true rfl (Or.inr h)
    · rw [if_neg h]
      rw [List.isEmpty_iff] at h
      exact iff_of_false (by simp) (not_or.mpr ⟨hg, h⟩)

/-- Duplicating a snapshot segment does not change whether the
prefix-overlap rule emits nothing. -/
theorem po_check_none_dup (p : BGPPeering) (s t : List BGPPeering) :
    (PrefixOverlapRule.check p (s ++ t ++ t) = none ↔
      PrefixOverlapRule.check p (s ++ t) = none) := by
  unfold PrefixOverlapRule.check
  cases hip : parseIPv4 p.peer_ip with
  | none => simp
  | some octets =>
    dsimp only
    by_cases hpriv : isPrivateIPv4 octets ∧ p.status = "active"
    · rw [if_pos hpriv, if_pos hpriv]
    · rw [if_neg hpriv, if_neg hpriv]
      by_cases hg : p.device = "" ∨ p.peer_ip = ""
      · rw [if_pos hg, if_pos hg]
      · rw [if_neg hg, if_neg hg]
        have hfe : ((s ++ t ++ t).filter (fun q => decide (q.id ≠ p.id ∧
            q.device = p.device ∧ q.peer_ip = p.peer_ip))).isEmpty =
            ((s ++ t).filter (fun q => decide (q.id ≠ p.id ∧
            q.device = p.device ∧ q.peer_ip = p.peer_ip))).isEmpty := by
          rw [Bool.eq_iff_iff, List.isEmpty_iff, List.isEmpty_iff]
          exact filter_dup_nil _ s t
        rw [hfe]
        by_cases h : ((s ++ t).filter (fun q => decide (q.id ≠ p.id ∧
            q.device = p.device ∧ q.peer_ip = p.peer_ip))).isEmpty = true
        · rw [if_pos h, if_pos h]
        · rw [if_neg h, if_neg h]
          simp

/-- Duplicating a snapshot segment does not change whether the evaluator
reports any conflict at all. -/
theorem detect_none_dup (p : BGPPeering) (s t : List BGPPeering) :
    (BGPConflictDetector.detect_conflicts p (s ++ t ++ t) = [] ↔
      BGPConflictDetector.detect_conflicts p (s ++ t) = []) := by
  rw [detect_conflicts_eq, detect_conflicts_eq,
    List.filterMap_eq_nil_iff, List.filterMap_eq_nil_iff]
  simp only [List.mem_cons, List.not_mem_nil, or_false, forall_eq_or_imp,
    forall_eq, id_eq]
  have h1 : ASNCollisionRule.check p (s ++ t ++ t) = none ↔
      ASNCollisionRule.check p (s ++ t) = none := by
    rw [asn_check_none_iff, asn_check_none_iff]
    exact filter_dup_nil _ s t
  have h2 : SessionOverlapRule.check p (s ++ t ++ t) = none ↔
      SessionOverlapRule.check p (s ++ t) = none := by
    rw [so_check_none_iff, so_check_none_iff]
    exact or_congr Iff.rfl (filter_dup_nil _ s t)
  have h3 := po_check_none_dup p s t
  have h4 : RoutingLoopRule.check p (s ++ t ++ t) =
      RoutingLoopRule.check p (s ++ t) := rfl
  have h5a := rpki_check_eq_none p (s ++ t ++ t)
  have h5b := rpki_check_eq_none p (s ++ t)
  rw [h4, h5a, h5b]
  tauto

/-- A successful bulk loop accepts every draft, in order. -/
theorem bulkGo_ok_eq (rest : List PeeringDraft) : ∀ (all acc created : List BGPPeering),
    bulkGo all acc rest = .ok created → created = acc ++ rest.map draftToPeering := by
  induction rest with
  | nil =>
    intro all acc created h
    simp only [bulkGo] at h
    cases h
    simp
  | cons d rest ih =>
    intro all acc created h
    simp only [bulkGo] at h
    by_cases hE : (BGPConflictDetector.detect_conflicts (draftToPeering d)
        (all ++ acc)).isEmpty = true
    · rw [if_pos hE] at h
      have := ih _ _ _ h
      simp only [this, List.map_cons]
      simp
    · rw [if_neg hE] at h
      cases h

/-- The bulk loop aborts iff some draft, checked against the snapshot
plus the previously accepted drafts, yields a conflict.  The loop's own
context is `(s ++ acc) ++ acc` (the accepted segment twice); conflict
*presence* over it coincides with the claim's single-segment context. -/
theorem bulkGo_error_iff (rest : List PeeringDraft) : ∀ (s acc : List BGPPeering),
    (∃ cs, bulkGo (s ++ acc) acc rest = .error cs) ↔
    (∃ pre d post, rest = pre ++ d :: post ∧
      BGPConflictDetector.detect_conflicts (draftToPeering d)
        (s ++ acc ++ pre.map draftToPeering) ≠ []) := by
  induction rest with
  | nil =>
    intro s acc
    constructor
    · rintro ⟨cs, h⟩
      simp only [bulkGo] at h
      cases h
    · rintro ⟨pre, d, post, habs, -⟩
      exact absurd habs.symm (by simp)
  | cons d0 rest ih =>
    intro s acc
    constructor
    · rintro ⟨cs, h⟩
      simp only [bulkGo] at h
      by_cases hE : (BGPConflictDetector.detect_conflicts (draftToPeering d0)
          (s ++ acc ++ acc)).isEmpty = true
      · rw [if_pos hE] at h
        have hshape : s ++ acc ++ [draftToPeering d0] =
            s ++ (acc ++ [draftToPeering d0]) := by
          rw [List.append_assoc]
        rw [hshape] at h
        obtain ⟨pre, d, post, hsplit, hne⟩ := (ih s (acc ++ [draftToPeering d0])).mp ⟨cs, h⟩
        refine ⟨d0 :: pre, d, post, by rw [hsplit]; rfl, ?_⟩
        have : s ++ acc ++ (d0 :: pre).map draftToPeering =
            s ++ (acc ++ [draftToPeering d0]) ++ pre.map draftToPeering := by
          simp
        rw [this]
        exact hne
      · rw [if_neg hE] at h
        refine ⟨[], d0, rest, by simp, ?_⟩
        rw [List.isEmpty_iff] at hE
        have hne : BGPConflictDetector.detect_conflicts (draftToPeering d0)
            (s ++ acc ++ acc) ≠ [] := hE
        have := (not_iff_not.mpr (detect_none_dup (draftToPeering d0) s acc)).mp hne
        simpa using this
    · rintro ⟨pre, d, post, hsplit, hne⟩
      simp only [bulkGo]
      by_cases hE : (BGPConflictDetector.detect_conflicts (draftToPeering d0)
          (s ++ acc ++ acc)).isEmpty = true
      · rw [if_pos hE]
        cases pre with
        | nil =>
          simp only [List.nil_append, List.cons.injEq] at hsplit
          obtain ⟨rfl, rfl⟩ := hsplit
          rw [List.isEmpty_iff] at hE
          have := (detect_none_dup (draftToPeering d0) s acc).mp hE
          simp only [List.map_nil, List.append_nil] at hne
          exact absurd this hne
        | cons p0 pre =>
          simp only [List.cons_append, List.cons.injEq] at hsplit
          obtain ⟨hp0, hrest⟩ := hsplit
          have hshape : s ++ acc ++ [draftToPeering d0] =
              s ++ (acc ++ [draftToPeering d0]) := by
            rw [List.append_assoc]
          rw [hshape]
          refine (ih s (acc ++ [draftToPeering d0])).mpr ⟨pre, d, post, hrest, ?_⟩
          have : s ++ (acc ++ [draftToPeering d0]) ++ pre.map draftToPeering =
              s ++ acc ++ (p0 :: pre).map draftToPeering := by
            rw [hp0]
            simp
          rw [this]
          exact hne
      · rw [if_neg hE]
        exact ⟨_, rfl⟩

/-- C4: bulk create is all-or-nothing.  With a non-empty batch of at
most 100 drafts, the request is rejected with a conflict payload iff
some draft — validated against the non-deleted snapshot accumulated with
the previously accepted drafts of the same batch — yields a non-empty
conflict set; on rejection nothing is persisted, and otherwise the whole
batch is committed. -/
theorem bulk_create_all_or_nothing (db : List BGPPeering) (drafts : List PeeringDraft)
    (h1 : drafts ≠ []) (h2 : drafts.length ≤ 100) :
    ((∃ cs, (bulk_create_peerings db drafts).2 = BulkResult.conflicts cs) ↔
      (∃ pre d post, drafts = pre ++ d :: post ∧
        BGPConflictDetector.detect_conflicts (draftToPeering d)
          (nonDeletedSnapshot db ++ pre.map draftToPeering) ≠ [])) ∧
    (∀ cs, (bulk_create_peerings db drafts).2 = BulkResult.conflicts cs →
      (bulk_create_peerings db drafts).1 = db) ∧
    ((∀ cs, (bulk_create_peerings db drafts).2 ≠ BulkResult.conflicts cs) →
      (bulk_create_peerings db drafts).1 =
        db ++ assignIds db (drafts.map draftToPeering)) := by
  have hiff := bulkGo_error_iff drafts (nonDeletedSnapshot db) []
  rw [List.append_nil] at hiff
  have hlen0 : ¬ (drafts.length = 0) := by
    intro h
    exact h1 (List.length_eq_zero.mp h)
  have hlen100 : ¬ (100 < drafts.length) := by omega
  simp only [bulk_create_peerings, if_neg hlen0, if_neg hlen100]
  cases hgo : bulkGo (nonDeletedSnapshot db) [] drafts with
  | error cs =>
    refine ⟨?_, ?_, ?_⟩
    · simp only []
      constructor
      · intro
        exact hiff.mp ⟨cs, hgo⟩
      · intro
        exact ⟨cs, rfl⟩
    · intro cs' h
      rfl
    · intro hno
      exact absurd rfl (hno cs)
  | ok created =>
    have hcreated : created = drafts.map draftToPeering := by
      have := bulkGo_ok_eq drafts (nonDeletedSnapshot db) [] created hgo
      simpa using this
    refine ⟨?_, ?_, ?_⟩
    · simp only []
      constructor
      · rintro ⟨cs, h⟩
        cases h
      · intro hex
        obtain ⟨cs, habs⟩ := hiff.mpr hex
        rw [hgo] at habs
        cases habs
    · intro cs' h
      cases h
    · intro _
      rw [hcreated]

/-- Witness for C4: a one-draft batch conflicting with the existing
catalog is rejected with a conflict payload. -/
theorem bulk_create_all_or_nothing_witness :
    ∃ cs, (bulk_create_peerings [dupRow] [dupDraft]).2 = BulkResult.conflicts cs :=
  (bulk_create_all_or_nothing [dupRow] [dupDraft] (by decide) (by decide)).1.mpr
    ⟨[], dupDraft, [], rfl, by with_unfolding_all decide⟩

/-! ### C7: hold-time / keepalive validation -/

/-- `keepalive <= hold_time / 3` under Python float division of these
small integers is exactly the rational comparison, i.e. `3*ka ≤ h`. -/
theorem keepalive_le_third_iff (ka h : Nat) :
    ((ka : ℚ) ≤ (h : ℚ) / 3) ↔ 3 * ka ≤ h := by
  rw [le_div_iff (by norm_num : (0 : ℚ) < 3),
    show ((ka : ℚ) * 3) = ((3 * ka : Nat) : ℚ) by push_cast; ring]
  exact Nat.cast_le

/-- The non-timing constraints of `BGPPeeringBase`, satisfied by any
otherwise well-formed draft. -/
def fixedFieldsOK (d : PeeringDraft) : Prop :=
  (1 ≤ d.name.length ∧ d.name.length ≤ 255) ∧
  (1 ≤ d.local_asn ∧ d.local_asn ≤ 4294967295) ∧
  (1 ≤ d.peer_asn ∧ d.peer_asn ≤ 4294967295) ∧
  (parseIPv4 d.peer_ip).isSome = true ∧
  (1 ≤ d.device.length ∧ d.device.length ≤ 255) ∧
  ((match d.interface with
    | some i => decide (i.length ≤ 255)
    | none => true) = true) ∧
  d.address_families.isEmpty = false

instance (d : PeeringDraft) : Decidable (fixedFieldsOK d) := by
  unfold fixedFieldsOK
  exact inferInstance

/-- The draft of end-to-end scenario 4: `hold_time:180, keepalive:61`. -/
def badTimerDraft : PeeringDraft :=
  { name := "p3", local_asn := 65000, peer_asn := 65001, peer_ip := "10.0.0.1"
    hold_time := 180, keepalive := 61, device := "r1", interface := none
    status := "pending", address_families := ["ipv4"], routing_policy := ⟨none⟩ }

/-- C7: on a draft whose non-timing fields are valid, schema validation
accepts exactly when `hold_time` is 0 or in 3..65535 and `keepalive` is
at least 1 and at most `hold_time/3` (for `hold_time = 0` no keepalive
satisfies both bounds, and the schema's `ge=3` likewise rejects it, so
the two conditions coincide); the draft with `hold_time:180,
keepalive:61` fails validation and the create route leaves the catalog
unchanged, returning a validation error. -/
theorem hold_keepalive_validation :
    (∀ d : PeeringDraft, fixedFieldsOK d →
      (BGPPeeringBase.validate d = true ↔
        ((d.hold_time = 0 ∨ (3 ≤ d.hold_time ∧ d.hold_time ≤ 65535)) ∧
          1 ≤ d.keepalive ∧ (d.keepalive : ℚ) ≤ (d.hold_time : ℚ) / 3))) ∧
    BGPPeeringBase.validate badTimerDraft = false ∧
    (∀ db : List BGPPeering, api_create_peering db badTimerDraft =
      (db, CreateResponse.validation_error)) := by
  have hbad : BGPPeeringBase.validate badTimerDraft = false := by
    with_unfolding_all decide
  refine ⟨?_, hbad, ?_⟩
  · intro d hf
    obtain ⟨h1, h2, h3, h4, h5, h6, h7⟩ := hf
    simp only [BGPPeeringBase.validate, Bool.and_eq_true, decide_eq_true_eq,
      Bool.not_eq_true', decide_eq_false_iff_not, not_lt, and_assoc]
    constructor
    · rintro ⟨-, -, -, -, -, -, -, hh1, hh2, hka1, -, -, -, -, hd3, -⟩
      exact ⟨Or.inr ⟨hh1, hh2⟩, hka1, hd3⟩
    · rintro ⟨hh, hka1, hka3⟩
      rcases hh with h0 | hh
      · exfalso
        rw [h0] at hka3
        rw [keepalive_le_third_iff] at hka3
        omega
      · have h3ka : 3 * d.keepalive ≤ d.hold_time :=
          (keepalive_le_third_iff _ _).mp hka3
        exact ⟨h1.1, h1.2, h2.1, h2.2, h3.1, h3.2, h4, hh.1, hh.2, hka1,
          by omega, h5.1, h5.2, h6, hka3, h7⟩
  · intro db
    simp [api_create_peering, hbad]

/-- The same draft with a legal keepalive, for the witness. -/
def okTimerDraft : PeeringDraft :=
  { badTimerDraft with keepalive := 60 }

/-- Witness for C7 at a fully valid draft. -/
theorem hold_keepalive_validation_witness :
    BGPPeeringBase.validate okTimerDraft = true ↔
      ((okTimerDraft.hold_time = 0 ∨
        (3 ≤ okTimerDraft.hold_time ∧ okTimerDraft.hold_time ≤ 65535)) ∧
        1 ≤ okTimerDraft.keepalive ∧
        (okTimerDraft.keepalive : ℚ) ≤ (okTimerDraft.hold_time : ℚ) / 3) :=
  hold_keepalive_validation.1 okTimerDraft (by with_unfolding_all decide)

/-! ### C8: the circuit-breaker state machine -/

/-- A sequence of calls whose wrapped function fails every time. -/
def failCalls (ts : List ℚ) : List (ℚ × CallOutcome) :=
  ts.map (fun t => (t, CallOutcome.failure))

/-- Unfolding one step of a call sequence. -/
theorem run_cons (cb : CircuitBreaker) (x : ℚ × CallOutcome)
    (l : List (ℚ × CallOutcome)) :
    CircuitBreaker.run cb (x :: l) = CircuitBreaker.run ((cb.call x.1 x.2).1) l := rfl

/-- One failing call from the closed state: the count rises and the
circuit opens exactly at the threshold. -/
theorem call_failure_from_closed (cb : CircuitBreaker) (t : ℚ)
    (h : cb.state = CircuitState.closed) :
    cb.call t CallOutcome.failure =
      (if cb.failure_threshold ≤ cb.failure_count + 1 then
        { cb with
          state := CircuitState.opened
          failure_count := cb.failure_count + 1
          last_failure_time := some t }
      else
        { cb with
          failure_count := cb.failure_count + 1
          last_failure_time := some t },
        CallResult.raised) := by
  unfold CircuitBreaker.call CircuitBreaker.on_failure
  rw [if_neg (by rw [h]; intro hh; cases hh)]
  dsimp only
  rw [if_neg (by rw [h]; intro hh; cases hh)]
  by_cases hc : cb.failure_threshold ≤ cb.failure_count + 1
  · rw [if_pos ⟨h, hc⟩, if_pos hc]
  · rw [if_neg (fun hx => hc hx.2), if_neg hc]

/-- A failing call never closes an open circuit. -/
theorem call_failure_open_absorb (cb : CircuitBreaker) (t : ℚ)
    (h : cb.state = CircuitState.opened) :
    ((cb.call t CallOutcome.failure).1).state = CircuitState.opened := by
  unfold CircuitBreaker.call
  rw [if_pos h]
  by_cases hg : (truthyTime cb.last_failure_time &&
      decide (cb.recovery_timeout ≤ t - cb.last_failure_time.getD 0)) = true
  · rw [if_pos hg]
    unfold CircuitBreaker.on_failure
    dsimp only
    rw [if_pos rfl]
  · rw [if_neg hg]
    exact h

/-- Failing calls keep an open circuit open. -/
theorem run_failure_open_absorb (ts : List ℚ) : ∀ cb : CircuitBreaker,
    cb.state = CircuitState.opened →
    (CircuitBreaker.run cb (failCalls ts)).state = CircuitState.opened := by
  induction ts with
  | nil => intro cb h; exact h
  | cons t ts ih =>
    intro cb h
    rw [show failCalls (t :: ts) = (t, CallOutcome.failure) :: failCalls ts from rfl,
      run_cons]
    exact ih _ (call_failure_open_absorb cb t h)

/-- Running consecutive failures from a closed breaker with threshold 5:
closed while the total stays below 5, open from 5 on. -/
theorem run_failure_spec (ts : List ℚ) : ∀ cb : CircuitBreaker,
    cb.state = CircuitState.closed → cb.failure_threshold = 5 →
    cb.failure_count < 5 →
    ((cb.failure_count + ts.length < 5 →
      (CircuitBreaker.run cb (failCalls ts)).state = CircuitState.closed) ∧
    (5 ≤ cb.failure_count + ts.length →
      (CircuitBreaker.run cb (failCalls ts)).state = CircuitState.opened)) := by
  induction ts with
  | nil =>
    intro cb hst hth hfc
    exact ⟨fun _ => hst, fun h5 => by simp at h5; omega⟩
  | cons t ts ih =>
    intro cb hst hth hfc
    rw [show failCalls (t :: ts) = (t, CallOutcome.failure) :: failCalls ts from rfl,
      run_cons]
    have hstep := call_failure_from_closed cb t hst
    rw [hstep]
    by_cases hthr : cb.failure_threshold ≤ cb.failure_count + 1
    · rw [if_pos hthr]
      constructor
      · intro hlt
        simp only [List.length_cons] at hlt
        omega
      · intro _
        exact run_failure_open_absorb ts _ rfl
    · rw [if_neg hthr]
      have hih := ih
        { cb with
          failure_count := cb.failure_count + 1
          last_failure_time := some t } hst hth (by dsimp only; omega)
      dsimp only at hih
      constructor
      · intro hlt
        simp only [List.length_cons] at hlt
        exact hih.1 (by omega)
      · intro h5
        simp only [List.length_cons] at h5
        exact hih.2 (by omega)

/-- C8: the circuit breaker's closed → open → half-open machine, at the
default thresholds: (1) from a fresh breaker, a run of consecutive
failing calls leaves the circuit open iff it contains at least 5
failures; (2) a success while closed resets the failure count and keeps
the circuit closed; (3) while open, any call within the cooldown fails
fast — the state is untouched and the wrapped function is not invoked;
(4) once the cooldown has elapsed, the single probe call is admitted
(half-open): a successful probe closes the circuit and resets the
failure count, a failing probe re-opens it. -/
theorem circuit_breaker_state_machine :
    (∀ ts : List ℚ,
      ((CircuitBreaker.run CircuitBreaker.default (failCalls ts)).state =
          CircuitState.opened ↔ 5 ≤ ts.length)) ∧
    (∀ (cb : CircuitBreaker) (t : ℚ), cb.state = CircuitState.closed →
      (cb.call t CallOutcome.success).1.failure_count = 0 ∧
      (cb.call t CallOutcome.success).1.state = CircuitState.closed) ∧
    (∀ (cb : CircuitBreaker) (t tf : ℚ) (f : CallOutcome),
      cb.state = CircuitState.opened → cb.last_failure_time = some tf → tf ≠ 0 →
      t - tf < cb.recovery_timeout → cb.call t f = (cb, CallResult.rejected)) ∧
    (∀ (cb : CircuitBreaker) (t tf : ℚ),
      cb.state = CircuitState.opened → cb.last_failure_time = some tf → tf ≠ 0 →
      cb.recovery_timeout ≤ t - tf →
      cb.call t CallOutcome.success =
        ({ cb with
            state := CircuitState.closed
            failure_count := 0
            success_count := 0 },
          CallResult.returned) ∧
      cb.call t CallOutcome.failure =
        ({ cb with
            state := CircuitState.opened
            failure_count := cb.failure_count + 1
            last_failure_time := some t
            success_count := 0 },
          CallResult.raised)) := by
  refine ⟨?_, ?_, ?_, ?_⟩
  · intro ts
    have hspec := run_failure_spec ts CircuitBreaker.default rfl rfl (by decide)
    simp only [CircuitBreaker.default, CircuitBreaker.mk0, Nat.zero_add] at hspec
    constructor
    · intro hopen
      by_contra hlt
      have := hspec.1 (by omega)
      unfold CircuitBreaker.default CircuitBreaker.mk0 at hopen
      rw [this] at hopen
      cases hopen
    · intro h5
      have := hspec.2 (by omega)
      unfold CircuitBreaker.default CircuitBreaker.mk0
      exact this
  · intro cb t h
    unfold CircuitBreaker.call CircuitBreaker.on_success
    rw [if_neg (by rw [h]; intro hh; cases hh)]
    dsimp only
    rw [if_neg (by rw [h]; intro hh; cases hh), if_pos h]
    exact ⟨rfl, h⟩
  · intro cb t tf f h hlft htf hcool
    unfold CircuitBreaker.call
    rw [if_pos h]
    rw [if_neg (by
      rw [hlft]
      simp only [truthyTime, Option.getD_some, Bool.and_eq_true, decide_eq_true_eq]
      intro hand
      exact absurd hand.2 (not_le.mpr hcool))]
  · intro cb t tf h hlft htf hcool
    have hgate : (truthyTime cb.last_failure_time &&
        decide (cb.recovery_timeout ≤ t - cb.last_failure_time.getD 0)) = true := by
      rw [hlft]
      simp only [truthyTime, Option.getD_some, Bool.and_eq_true, decide_eq_true_eq]
      exact ⟨by simp [htf], hcool⟩
    constructor
    · unfold CircuitBreaker.call CircuitBreaker.on_success
      rw [if_pos h, if_pos hgate]
      dsimp only
      rw [if_pos rfl]
      norm_num
    · unfold CircuitBreaker.call CircuitBreaker.on_failure
      rw [if_pos h, if_pos hgate]
      dsimp only
      rw [if_pos rfl]

/-- An open breaker inside its cooldown, for the witness. -/
def openBreaker : CircuitBreaker :=
  { CircuitBreaker.default with
    state := CircuitState.opened
    failure_count := 5
    last_failure_time := some 1 }

/-- Witness for C8: the open breaker rejects a call 29 seconds after the
last failure without invoking the wrapped function. -/
theorem circuit_breaker_state_machine_witness :
    openBreaker.call 30 CallOutcome.success = (openBreaker, CallResult.rejected) :=
  circuit_breaker_state_machine.2.2.1 openBreaker 30 1 CallOutcome.success rfl rfl
    (by norm_num) (by with_unfolding_all decide)

/-! ### C9: stored anomalies and the 3-sigma ratio -/

/-- The severity map sends exactly the string `"low"` to `LOW`. -/
theorem severityOf_eq_low_iff (s : String) :
    severityOf s = AnomalySeverity.low ↔ s = "low" := by
  unfold severityOf
  split_ifs with h1 h2 h3 h4 <;> simp_all

/-- A non-`"low"` severity with positive variance means the deviation is
at least three rolling standard deviations (in squared form). -/
theorem calculate_severity_not_low (dev var : ℚ) (hv : 0 < var)
    (hs : calculate_severity dev var ≠ "low") : 9 * var ≤ dev ^ 2 := by
  unfold calculate_severity at hs
  rw [if_neg (ne_of_gt hv)] at hs
  by_cases h25 : 25 * var ≤ dev ^ 2
  · linarith
  · rw [if_neg h25] at hs
    by_cases h16 : 16 * var ≤ dev ^ 2
    · linarith
    · rw [if_neg h16] at hs
      by_cases h9 : 9 * var ≤ dev ^ 2
      · exact h9
      · rw [if_neg h9] at hs
        exact absurd rfl hs

/-- Destructuring a record produced by `detect_anomalies`: its stored
fields are the residual's absolute value, the (squared) rolling std and
the severity computed from them, and `value - expected_value` is the
residual itself. -/
theorem mem_detect_anomalies_spec (st : ℚ) (metric : String)
    (pts : List (ℚ × ℚ)) (fc : List ForecastRow) (d : AnomalyRecord)
    (hd : d ∈ AnomalyDetector.detect_anomalies st metric pts fc) :
    ∃ r v : ℚ, d.deviation = |r| ∧ d.residual_var = v ∧
      d.severity = calculate_severity |r| v ∧ d.value - d.expected_value = r := by
  unfold AnomalyDetector.detect_anomalies at hd
  by_cases hlen : pts.length < 10
  · rw [if_pos hlen] at hd
    exact absurd hd (List.not_mem_nil d)
  · rw [if_neg hlen] at hd
    obtain ⟨i, hi, hgi⟩ := List.mem_filterMap.mp hd
    dsimp only at hgi
    set rows := (sortByTs pts).zip fc with hrows
    set rs := rows.map (fun r => r.1.2 - r.2.1) with hrs
    set w := min 30 (pts.length / 2) with hw
    set r := rs.getD i 0 with hr
    set m := residualMeanAt rs w i with hm
    set v := residualVarAt rs w i with hv
    by_cases hcond : st ^ (2 : Nat) * v < (r - m) ^ (2 : Nat)
    · rw [if_pos hcond] at hgi
      have hd' := hgi
      injection hd' with hd''
      refine ⟨r, v, ?_, ?_, ?_, ?_⟩
      · rw [← hd'']
      · rw [← hd'']
      · rw [← hd'']
      · rw [← hd'']
        show (rows.getD i ((0, 0), (0, 0, 0))).1.2 -
          (rows.getD i ((0, 0), (0, 0, 0))).2.1 = r
        have hin : i < rows.length := by
          have := List.mem_range.mp hi
          exact this
        rw [hr, hrs]
        rw [List.getD_eq_getElem?_getD, List.getD_eq_getElem?_getD,
          List.getElem?_map, List.getElem?_eq_getElem hin]
        rfl
    · rw [if_neg hcond] at hgi
      exact absurd hgi (by simp)

/-- C9 (amended): every anomaly stored by the detector whose metadata σ
is positive and whose stored severity is not `low` satisfies the 3-sigma
inequality `|value − expected_value| ≥ 3σ`.  (Anomalies are flagged by
the 3-sigma rule *around the rolling residual mean*, so the spec's
unconditional inequality fails — such anomalies are exactly the ones
classified `low`; see the counterexample.) -/
theorem stored_anomaly_sigma (st : ℚ) (metric : String) (pts : List (ℚ × ℚ))
    (fc : List ForecastRow) (device : Option String) (a : Anomaly)
    (ha : a ∈ AnomalyDetector.detect_and_store_anomalies st metric pts fc device)
    (hv : 0 < a.residual_var) (hs : a.severity ≠ AnomalySeverity.low) :
    3 * Real.sqrt (a.residual_var : ℝ) ≤ |(a.value : ℝ) - (a.expected_value : ℝ)| := by
  unfold AnomalyDetector.detect_and_store_anomalies at ha
  obtain ⟨d, hd, hda⟩ := List.mem_map.mp ha
  obtain ⟨r, v, hdev, hvar, hsev, hres⟩ := mem_detect_anomalies_spec st metric pts fc d hd
  have hav : a.residual_var = v := by rw [← hda]; exact hvar
  have havl : a.value = d.value := by rw [← hda]
  have hael : a.expected_value = d.expected_value := by rw [← hda]
  have hasv : a.severity = severityOf d.severity := by rw [← hda]
  have hslow : calculate_severity |r| v ≠ "low" := by
    intro habs
    apply hs
    rw [hasv, hsev, habs]
    exact (severityOf_eq_low_iff "low").mpr rfl
  have hv' : 0 < v := by rw [← hav]; exact hv
  have h9 : 9 * v ≤ |r| ^ 2 := calculate_severity_not_low |r| v hv' hslow
  have h9' : (9 : ℝ) * (v : ℝ) ≤ (r : ℝ) ^ 2 := by
    have h9r : 9 * v ≤ r ^ 2 := by
      rw [← sq_abs r]
      exact h9
    exact_mod_cast h9r
  have hgoal : |(a.value : ℝ) - (a.expected_value : ℝ)| = |(r : ℝ)| := by
    rw [havl, hael]
    rw [show ((d.value : ℝ) - (d.expected_value : ℝ)) =
      ((d.value - d.expected_value : ℚ) : ℝ) by push_cast; ring]
    rw [hres]
  rw [hgoal, hav]
  calc 3 * Real.sqrt (v : ℝ) = Real.sqrt (9 * (v : ℝ)) := by
        rw [show (9 : ℝ) * (v : ℝ) = 3 ^ 2 * (v : ℝ) by ring,
          Real.sqrt_mul (by positivity), Real.sqrt_sq (by norm_num)]
    _ ≤ Real.sqrt ((r : ℝ) ^ 2) := Real.sqrt_le_sqrt h9'
    _ = |(r : ℝ)| := Real.sqrt_sq_eq_abs _

/-- 22 hourly points whose residual is 0 at the first timestamp and 22
everywhere else (the forecast below is identically zero). -/
def ptsLowDev : List (ℚ × ℚ) :=
  (List.range 22).map (fun i => ((i : ℚ), if i = 0 then 0 else 22))

/-- A zero forecast (`yhat = yhat_lower = yhat_upper = 0`). -/
def zeroForecast : List ForecastRow :=
  (List.range 22).map (fun _ => ((0 : ℚ), (0 : ℚ), (0 : ℚ)))

/-- The single anomaly the detector stores on `ptsLowDev`: the rolling
statistics at index 0 fall back to the global residual mean 21 and
variance 22, so residual 0 is flagged (|0 − 21|² = 441 > 9·22), yet its
stored deviation is 0. -/
def lowDevAnomaly : Anomaly :=
  { metric_name := "bgp_session_flaps"
    anomaly_type := AnomalyType.bgp_flap
    timestamp := 0
    value := 0
    expected_value := 0
    deviation := 0
    severity := AnomalySeverity.low
    device := none
    residual_var := 22
    sigma_threshold := 3
    lower_bound := 0
    upper_bound := 0 }

set_option maxRecDepth 10000 in
/-- C9 counterexample: the detector stores an anomaly whose metadata σ is
positive (σ² = 22) while `|value − expected_value| = 0 < 3σ`, refuting
the claim's unconditional inequality. -/
theorem stored_anomaly_sigma_counterexample :
    ∃ a ∈ AnomalyDetector.detect_and_store_anomalies 3 "bgp_session_flaps"
        ptsLowDev zeroForecast none,
      0 < Real.sqrt (a.residual_var : ℝ) ∧
      |(a.value : ℝ) - (a.expected_value : ℝ)| < 3 * Real.sqrt (a.residual_var : ℝ) := by
  have hlist : AnomalyDetector.detect_and_store_anomalies 3 "bgp_session_flaps"
      ptsLowDev zeroForecast none = [lowDevAnomaly] := by
    with_unfolding_all decide
  have hsq : (0 : ℝ) < Real.sqrt ((22 : ℚ) : ℝ) := by
    rw [Real.sqrt_pos]
    norm_num
  refine ⟨lowDevAnomaly, by rw [hlist]; exact List.mem_singleton.mpr rfl, ?_, ?_⟩
  · exact hsq
  · show |((0 : ℚ) : ℝ) - ((0 : ℚ) : ℝ)| < 3 * Real.sqrt ((22 : ℚ) : ℝ)
    simp only [Rat.cast_zero, sub_zero, abs_zero]
    positivity

/-- The mirror data set: residual 22 at the first timestamp, 0 elsewhere. -/
def ptsHighDev : List (ℚ × ℚ) :=
  (List.range 22).map (fun i => ((i : ℚ), if i = 0 then 22 else 0))

/-- The anomaly stored on `ptsHighDev`: deviation 22, σ² = 22, severity
`high`. -/
def highDevAnomaly : Anomaly :=
  { metric_name := "bgp_session_flaps"
    anomaly_type := AnomalyType.bgp_flap
    timestamp := 0
    value := 22
    expected_value := 0
    deviation := 22
    severity := AnomalySeverity.high
    device := none
    residual_var := 22
    sigma_threshold := 3
    lower_bound := 0
    upper_bound := 0 }

/-- Witness for the amended C9 at a stored anomaly of severity `high`. -/
theorem stored_anomaly_sigma_witness :
    3 * Real.sqrt ((highDevAnomaly.residual_var : ℚ) : ℝ) ≤
      |(highDevAnomaly.value : ℝ) - (highDevAnomaly.expected_value : ℝ)| :=
  stored_anomaly_sigma 3 "bgp_session_flaps" ptsHighDev zeroForecast none highDevAnomaly
    (by set_option maxRecDepth 10000 in with_unfolding_all decide)
    (by with_unfolding_all decide) (by decide)
